import Mathlib

/-!
Shallow embedding of `main.py` of the cementmind-api repository: a single
HTTP Cloud Function `predict_telemetry` around a pre-trained regression
model, plus the cold-start loader `load_model`.

Numeric values of the Python runtime are modelled exactly: finite floats
become rationals, and the non-finite values `nan`, `inf`, `-inf` are
explicit constructors, so that `float(...)` coercion and `round(...)` can
be embedded faithfully.  The trained model itself (`model.joblib`) is an
opaque artifact, modelled as a function from the single input value to an
optional output row (`none` = any exception raised inside `model.predict`
or the surrounding prediction block).
-/

namespace CementMind

attribute [local semireducible] Rat.add Rat.mul Rat.sub Rat.inv Rat.ofScientific

/-- A Python float value: a finite rational, or one of the non-finite
IEEE values that `float("nan")` / `float("inf")` produce. -/
inductive PyFloat where
  | finite (q : ℚ)
  | nan
  | inf
  | ninf
  deriving DecidableEq, Repr

/-- A JSON value as it appears in a parsed POST body (`request.get_json`).
Objects nested below the top level never influence the handler, so an
array's or object's contents are carried only for completeness. -/
inductive JsonVal where
  | str (s : String)
  | num (q : ℚ)
  | bool (b : Bool)
  | null
  | arr (n : ℕ)
  | obj (n : ℕ)
  deriving DecidableEq, Repr

/-- The artifacts descriptor `model_artifacts.json`:
`{"input_features": [...], "output_features": [...]}`. -/
structure Artifacts where
  input_features : List String
  output_features : List String
  deriving DecidableEq, Repr

/-- The opaque deserialized regressor: one input value in, one output row
out; `none` models an exception raised during `model.predict` (or an
`IndexError` on an empty prediction result). -/
abbrev PyModel := PyFloat → Option (List PyFloat)

/-- The module-level globals `model` and `artifacts` of `main.py`;
`none` is Python `None`. -/
structure ModelContext where
  model : Option PyModel
  artifacts : Option Artifacts

/-- HTTP method of a request reaching the handler. -/
inductive Method where
  | GET
  | POST
  | OPTIONS
  deriving DecidableEq, Repr

/-- One inbound HTTP request: the method, the result of
`request.get_json(silent=True)` for a POST (`none` = missing or invalid
JSON body), and the query parameters `request.args` for a GET. -/
structure Request where
  method : Method
  jsonBody : Option (List (String × JsonVal))
  args : List (String × String)

/-- A response body: plain text (error paths and the empty preflight
body) or a JSON object with ordered keys (the 200 path). -/
inductive Body where
  | text (s : String)
  | json (entries : List (String × PyFloat))
  deriving DecidableEq, Repr

/-- A handler response: `(body, status, headers)` as returned to
functions_framework. -/
structure Response where
  body : Body
  status : ℕ
  headers : List (String × String)
  deriving DecidableEq, Repr

/-- The CORS header dict built at the top of `predict_telemetry`. -/
def corsHeaders : List (String × String) :=
  [("Access-Control-Allow-Origin", "*"),
   ("Access-Control-Allow-Methods", "POST, GET, OPTIONS"),
   ("Access-Control-Allow-Headers", "Content-Type")]

/-- Does `l` start with `pat`?  (Bool-valued, over characters.) -/
def listStartsWith : List Char → List Char → Bool
  | _, [] => true
  | [], _ :: _ => false
  | a :: as, b :: bs => a == b && listStartsWith as bs

/-- Does `l` contain `pat` as a contiguous run? -/
def listHasSub : List Char → List Char → Bool
  | l, pat =>
    listStartsWith l pat ||
      match l with
      | [] => false
      | _ :: as => listHasSub as pat

/-- Python's `pat in key` substring test on strings. -/
def strContains (key pat : String) : Bool :=
  listHasSub key.toList pat.toList

/-- Numeric value of a run of decimal digits. -/
def digitsVal (l : List Char) : ℕ :=
  l.foldl (fun a c => 10 * a + (c.toNat - 48)) 0

/-- Parse the optional exponent part of a Python float literal: either
nothing is left, or `e`/`E`, an optional sign, and a nonempty digit run
consuming the whole rest. -/
def parseExpPart : List Char → Option ℤ
  | [] => some 0
  | c :: rest =>
    if c = 'e' ∨ c = 'E' then
      let (sgn, rest') :=
        match rest with
        | '+' :: r => ((1 : ℤ), r)
        | '-' :: r => ((-1 : ℤ), r)
        | _ => ((1 : ℤ), rest)
      let (ds, rest'') := rest'.span Char.isDigit
      if ds = [] ∨ rest'' ≠ [] then none
      else some (sgn * (digitsVal ds : ℤ))
    else none

/-- Parse an unsigned Python decimal float literal (digits, optional
point, optional exponent), exactly: the whole input must be consumed
and at least one mantissa digit must be present. -/
def parseDecimal (l : List Char) : Option ℚ :=
  let (ds1, r1) := l.span Char.isDigit
  let (ds2, r2) :=
    match r1 with
    | '.' :: rest => rest.span Char.isDigit
    | _ => (([] : List Char), r1)
  if ds1 = [] ∧ ds2 = [] then none
  else
    match parseExpPart r2 with
    | none => none
    | some e => some ((digitsVal (ds1 ++ ds2) : ℚ) * (10 : ℚ) ^ (e - (ds2.length : ℤ)))

/-- CPython's `Py_ISSPACE` on an ASCII character: 0x09-0x0D, 0x1C-0x1F
and the space 0x20 — the set `float(str)` strips at both ends (wider
than `Char.isWhitespace`: it includes vertical tab, form feed and the
separator controls FS/GS/RS/US). -/
def isPySpace (c : Char) : Bool :=
  (9 ≤ c.toNat && c.toNat ≤ 13) || (28 ≤ c.toNat && c.toNat ≤ 31) || c.toNat = 32

/-- Strip leading and trailing `Py_ISSPACE` whitespace, as `float(str)`
does. -/
def stripWs (l : List Char) : List Char :=
  ((l.dropWhile isPySpace).reverse.dropWhile isPySpace).reverse

/-- Worker for PEP 515 underscore removal: `prev` is the previous
character (the sentinel for the start of the string).  An underscore is
legal only immediately after an ASCII digit and immediately before one;
legal underscores are dropped, anything else fails. -/
def stripUnderscoresGo : Char → List Char → Option (List Char)
  | prev, [] => if prev = '_' then none else some []
  | prev, c :: rest =>
    if c = '_' then
      if prev.isDigit then stripUnderscoresGo c rest else none
    else
      if prev = '_' ∧ ¬c.isDigit then none
      else (stripUnderscoresGo c rest).map (c :: ·)

/-- CPython's `_Py_string_to_number_with_underscores` validation: every
underscore must be surrounded by ASCII digits; valid underscores are
removed before the numeric parse, and an ill-placed one raises
`ValueError` (modelled as `none`). -/
def stripUnderscores (l : List Char) : Option (List Char) :=
  stripUnderscoresGo 'A' l

/-- Is every character of `s` ASCII?  CPython transliterates non-ASCII
input (Unicode decimal digits to ASCII digits, Unicode spaces to ' ')
before the parse modelled here; that pre-pass is not modelled, so
claims about strings `float()` rejects are scoped to ASCII strings,
where this parser is exact. -/
def isAsciiStr (s : String) : Bool :=
  s.toList.all fun c => c.toNat < 128

/-- CPython's `float(s)` on an ASCII string: PEP 515 underscore
validation and removal, `Py_ISSPACE` whitespace stripping, an optional
sign, then `inf`/`infinity`/`nan` (case-insensitive) or a decimal
literal.  `none` models the `ValueError` raised on anything else.  On
non-ASCII strings CPython first transliterates Unicode digits and
spaces to ASCII and then runs this same parse; that pre-pass is not
modelled. -/
def pyFloatOfString (s : String) : Option PyFloat :=
  match stripUnderscores s.toList with
  | none => none
  | some l0 =>
    let l := stripWs l0
    let (neg, l') :=
      match l with
      | '+' :: r => (false, r)
      | '-' :: r => (true, r)
      | _ => (false, l)
    let low := l'.map Char.toLower
    if low = ['i', 'n', 'f'] ∨ low = ['i', 'n', 'f', 'i', 'n', 'i', 't', 'y'] then
      some (if neg then PyFloat.ninf else PyFloat.inf)
    else if low = ['n', 'a', 'n'] then
      some PyFloat.nan
    else
      match parseDecimal l' with
      | some q => some (PyFloat.finite (if neg then -q else q))
      | none => none

/-- Python's `float(x)` on a JSON-derived value: strings are parsed,
numbers pass through, booleans coerce to 0/1, and `None`, arrays and
objects raise `TypeError` (modelled as `none`). -/
def pyFloatOfJson : JsonVal → Option PyFloat
  | JsonVal.str s => pyFloatOfString s
  | JsonVal.num q => some (PyFloat.finite q)
  | JsonVal.bool b => some (PyFloat.finite (if b then 1 else 0))
  | JsonVal.null => none
  | JsonVal.arr _ => none
  | JsonVal.obj _ => none

/-- Round-half-to-even on rationals, Python's `round` tie rule. -/
def roundHalfEven (q : ℚ) : ℤ :=
  let f := q.floor
  let r := q - f
  if r < 1 / 2 then f
  else if 1 / 2 < r then f + 1
  else if f % 2 = 0 then f else f + 1

/-- Python's `round(q, n)` on a finite value, over exact rationals. -/
def pyRoundQ (n : ℕ) (q : ℚ) : ℚ :=
  (roundHalfEven (q * 10 ^ n) : ℚ) / 10 ^ n

/-- Python's `round(v, n)` on a float: non-finite values pass through
unchanged when an `ndigits` argument is given. -/
def pyRound (n : ℕ) : PyFloat → PyFloat
  | PyFloat.finite q => PyFloat.finite (pyRoundQ n q)
  | v => v

/-- The per-feature rounding policy of the formatting loop
(lines 108-115 of `main.py`): first matching substring rule wins. -/
def roundFor (key : String) (v : PyFloat) : PyFloat :=
  if strContains key "vibration" then pyRound 2 v
  else if strContains key "pressure" || strContains key "flow" then pyRound 0 v
  else pyRound 1 v

/-- Association-list lookup mirroring Python dict lookup on the parsed
payload (keys are unique in a dict, so first match is the match). -/
def dget : List (String × JsonVal) → String → Option JsonVal
  | [], _ => none
  | (k, v) :: rest, key => if k = key then some v else dget rest key

/-- `request_data.get(key)`: a stored JSON `null` is Python `None` and is
therefore indistinguishable from an absent key. -/
def pyGet (d : List (String × JsonVal)) (key : String) : Option JsonVal :=
  match dget d key with
  | some JsonVal.null => none
  | x => x

/-- Python dict insertion: overwrite in place if the key exists, else
append, preserving insertion order. -/
def dictInsert (d : List (String × PyFloat)) (k : String) (v : PyFloat) :
    List (String × PyFloat) :=
  match d with
  | [] => [(k, v)]
  | (k', v') :: rest => if k' = k then (k', v) :: rest else (k', v') :: dictInsert rest k v

/-- `dict(zip(ks, vs))`: zip truncates to the shorter list, and the dict
is built by successive insertion. -/
def dictOfZip (ks : List String) (vs : List PyFloat) : List (String × PyFloat) :=
  (ks.zip vs).foldl (fun d kv => dictInsert d kv.1 kv.2) []

/-- The HTTP handler `predict_telemetry` of `main.py`, line by line:
preflight, model check, extraction, field presence, `float` coercion,
prediction, rounding, response.  The `restFeatures = []` guard embeds the
`pd.DataFrame` construction, which raises (caught as a 500) when the
single-column data row does not match the `input_features` column list;
an empty `input_features` makes `input_features[0]` raise `IndexError`,
caught by the broad `except` of the validation block. -/
def predict_telemetry (ctx : ModelContext) (req : Request) : Response :=
  if req.method = Method.OPTIONS then
    ⟨Body.text "", 204, corsHeaders⟩
  else
    match ctx.model, ctx.artifacts with
    | some m, some a =>
      let request_data : Option (List (String × JsonVal)) :=
        if req.method = Method.POST then req.jsonBody
        else some (req.args.map fun kv => (kv.1, JsonVal.str kv.2))
      match request_data with
      | none => ⟨Body.text "Bad Request: Missing or invalid JSON payload.", 400, corsHeaders⟩
      | some d =>
        match a.input_features with
        | [] => ⟨Body.text "Bad Request: Could not parse input.", 400, corsHeaders⟩
        | input_feature_name :: restFeatures =>
          match pyGet d input_feature_name with
          | none =>
            ⟨Body.text ("Bad Request: Missing '" ++ input_feature_name ++ "' parameter."),
              400, corsHeaders⟩
          | some jv =>
            match pyFloatOfJson jv with
            | none =>
              ⟨Body.text ("Bad Request: Invalid value for '" ++ input_feature_name ++
                  "'. Must be a number."), 400, corsHeaders⟩
            | some raw_mill_load_val =>
              if restFeatures = [] then
                match m raw_mill_load_val with
                | none => ⟨Body.text "Internal Server Error: Prediction failed.", 500, corsHeaders⟩
                | some row =>
                  let prediction_dict := dictOfZip a.output_features row
                  ⟨Body.json (prediction_dict.map fun kv => (kv.1, roundFor kv.1 kv.2)),
                    200, corsHeaders⟩
              else
                ⟨Body.text "Internal Server Error: Prediction failed.", 500, corsHeaders⟩
    | _, _ => ⟨Body.text "Internal Server Error: Model not loaded", 500, corsHeaders⟩

/-- The module-level state before `load_model()` runs: both globals are
`None`. -/
def initialState : ModelContext := ⟨none, none⟩

/-- `load_model()` of `main.py`.  Its two effectful reads are passed in as
outcomes: `jl` is `joblib.load(MODEL_FILE)` and `js` is the open-and-parse
of `ARTIFACTS_FILE`; `Except.error` is any raised exception.  The global
`model` is assigned before the artifacts read, so a failing artifacts read
leaves `model` set and `artifacts` untouched; every exception is caught
and turned into a `False` return. -/
def load_model (jl : Except String PyModel) (js : Except String Artifacts)
    (st : ModelContext) : ModelContext × Bool :=
  match jl with
  | Except.error _ => (st, false)
  | Except.ok m =>
    match js with
    | Except.error _ => ({ st with model := some m }, false)
    | Except.ok a => (⟨some m, some a⟩, true)

/-- A concrete artifacts descriptor of the shape the deployment ships:
one input feature, twelve distinct output features. -/
def exArtifacts : Artifacts :=
  ⟨["raw_mill_load"],
   ["motor_vibration_x", "motor_vibration_y", "outlet_pressure", "inlet_pressure",
    "air_flow", "material_flow", "bearing_temperature", "motor_temperature",
    "motor_current", "separator_current", "mill_load", "outlet_temperature"]⟩

/-- A concrete stand-in for the deserialized regressor: always returns a
full 12-value row. -/
def exModel : PyModel := fun _ => some (List.replicate 12 (PyFloat.finite 3.14159))

/-- A concrete loaded Model Context built from the examples above. -/
def exCtx : ModelContext := ⟨some exModel, some exArtifacts⟩

/-! ## Helper lemmas -/

/-- The model-unloaded 500 response is taken on every non-OPTIONS request
as soon as either global is `None`, independently of the payload. -/
theorem notLoaded_500 (ctx : ModelContext) (req : Request)
    (hreq : req.method ≠ Method.OPTIONS)
    (hctx : ctx.model = none ∨ ctx.artifacts = none) :
    predict_telemetry ctx req =
      ⟨Body.text "Internal Server Error: Model not loaded", 500, corsHeaders⟩ := by
  obtain ⟨mo, ar⟩ := ctx
  unfold predict_telemetry
  rw [if_neg hreq]
  rcases hctx with h | h <;> simp only at h <;> subst h
  · cases ar <;> rfl
  · cases mo <;> rfl

/-- Inserting a fresh key appends it at the end. -/
theorem dictInsert_append (d : List (String × PyFloat)) (k : String) (v : PyFloat)
    (h : ∀ p ∈ d, p.1 ≠ k) : dictInsert d k v = d ++ [(k, v)] := by
  induction d with
  | nil => rfl
  | cons p rest ih =>
    obtain ⟨k', v'⟩ := p
    have hk : k' ≠ k := h (k', v') (List.mem_cons_self _ _)
    simp only [dictInsert, if_neg hk, List.cons_append, List.cons.injEq, true_and]
    exact ih fun p hp => h p (List.mem_cons_of_mem _ hp)

/-- Folding `dictInsert` over pairs with keys disjoint from the
accumulator and mutually distinct just appends the pairs. -/
theorem foldl_dictInsert (l acc : List (String × PyFloat))
    (hdisj : ∀ p ∈ acc, ∀ q ∈ l, p.1 ≠ q.1)
    (hnd : (l.map Prod.fst).Nodup) :
    l.foldl (fun d kv => dictInsert d kv.1 kv.2) acc = acc ++ l := by
  induction l generalizing acc with
  | nil => simp
  | cons kv rest ih =>
    obtain ⟨k, v⟩ := kv
    simp only [List.map_cons, List.nodup_cons] at hnd
    have step : dictInsert acc k v = acc ++ [(k, v)] :=
      dictInsert_append acc k v fun p hp => hdisj p hp (k, v) (List.mem_cons_self _ _)
    simp only [List.foldl_cons, step]
    rw [ih (acc ++ [(k, v)])]
    · simp
    · intro p hp q hq
      rcases List.mem_append.mp hp with hp' | hp'
      · exact hdisj p hp' q (List.mem_cons_of_mem _ hq)
      · simp only [List.mem_singleton] at hp'
        subst hp'
        intro hk
        have hk' : k = q.1 := hk
        exact hnd.1 (by rw [hk']; exact List.mem_map_of_mem Prod.fst hq)
    · exact hnd.2

/-- The first components of `ks.zip vs` are the first `vs.length`
elements of `ks`. -/
theorem map_fst_zip_take (ks : List String) (vs : List PyFloat) :
    (ks.zip vs).map Prod.fst = ks.take vs.length := by
  induction ks generalizing vs with
  | nil => simp
  | cons k ks ih =>
    cases vs with
    | nil => simp
    | cons v vs => simp [ih]

/-- On a duplicate-free key list, `dict(zip(ks, vs))` is just the zip. -/
theorem dictOfZip_eq_zip (ks : List String) (vs : List PyFloat) (h : ks.Nodup) :
    dictOfZip ks vs = ks.zip vs := by
  unfold dictOfZip
  rw [foldl_dictInsert (ks.zip vs) [] (by simp)]
  · simp
  · rw [map_fst_zip_take]
    exact h.sublist (List.take_sublist _ _)

/-- Fidelity checks of the `float(str)` model against CPython: PEP 515
underscores between digits are accepted and stripped (`float("1_5")` is
15.0, `float("1_2.3_4e1_0")` is 1.234e11), ill-placed underscores raise
(`"1__5"`, `"_15"`, `"15_"`, `"1_.5"`, `"1e_5"`), and the whole
`Py_ISSPACE` set is stripped (`"\x0b12\x1f"` parses to 12.0). -/
theorem pyFloatOfString_pep515_checks :
    pyFloatOfString "1_5" = some (PyFloat.finite 15) ∧
    pyFloatOfString "1_000.5" = some (PyFloat.finite (2001 / 2)) ∧
    pyFloatOfString "1_2.3_4e1_0" = some (PyFloat.finite (1234 * 10 ^ 8)) ∧
    pyFloatOfString "1__5" = none ∧
    pyFloatOfString "_15" = none ∧
    pyFloatOfString "15_" = none ∧
    pyFloatOfString "1_.5" = none ∧
    pyFloatOfString "1e_5" = none ∧
    pyFloatOfString "\x0b12\x1f" = some (PyFloat.finite 12) := by
  decide

/-! ## Claim theorems -/

/-- Claim C3: with the Model Context unloaded (either global still
`None`), every non-OPTIONS request gets the fixed 500 model-not-loaded
response, independent of its payload — no extraction or validation is
reached. -/
theorem unloaded_non_options_500 (ctx : ModelContext) (req : Request)
    (hreq : req.method ≠ Method.OPTIONS)
    (hctx : ctx.model = none ∨ ctx.artifacts = none) :
    predict_telemetry ctx req =
      ⟨Body.text "Internal Server Error: Model not loaded", 500, corsHeaders⟩ :=
  notLoaded_500 ctx req hreq hctx

/-- Witness for C3 at the cold-start state and a concrete GET request. -/
theorem unloaded_non_options_500_witness :
    predict_telemetry initialState ⟨Method.GET, none, []⟩ =
      ⟨Body.text "Internal Server Error: Model not loaded", 500, corsHeaders⟩ :=
  unloaded_non_options_500 initialState ⟨Method.GET, none, []⟩ (by decide) (Or.inl rfl)

/-- Claim C5: an OPTIONS request always yields 204 with an empty body and
the CORS headers, whatever the Model Context holds. -/
theorem options_preflight_204 (ctx : ModelContext) (req : Request)
    (hreq : req.method = Method.OPTIONS) :
    predict_telemetry ctx req = ⟨Body.text "", 204, corsHeaders⟩ := by
  unfold predict_telemetry
  rw [if_pos hreq]

/-- Witness for C5 at the unloaded cold-start state. -/
theorem options_preflight_204_witness :
    predict_telemetry initialState ⟨Method.OPTIONS, none, []⟩ =
      ⟨Body.text "", 204, corsHeaders⟩ :=
  options_preflight_204 initialState ⟨Method.OPTIONS, none, []⟩ rfl

/-- Claim C6: every response of the handler, on every control path,
carries exactly the three CORS headers. -/
theorem responses_carry_cors (ctx : ModelContext) (req : Request) :
    (predict_telemetry ctx req).headers = corsHeaders := by
  obtain ⟨mo, ar⟩ := ctx
  obtain ⟨mth, jb, ags⟩ := req
  unfold predict_telemetry
  cases mth <;> cases mo <;> cases ar <;> simp only [] <;>
    repeat' first
      | rfl
      | split

/-- Claim C9: the handler is deterministic and stateless: with the same
Model Context, requests with identical method and payload produce
identical responses (the embedding returns the response as a pure
function of context and request, with no context output: the Python
handler declares no `global` and mutates only request-local values). -/
theorem handler_deterministic (ctx : ModelContext) (r₁ r₂ : Request)
    (hm : r₁.method = r₂.method) (hb : r₁.jsonBody = r₂.jsonBody)
    (ha : r₁.args = r₂.args) :
    predict_telemetry ctx r₁ = predict_telemetry ctx r₂ := by
  obtain ⟨m₁, b₁, a₁⟩ := r₁
  obtain ⟨m₂, b₂, a₂⟩ := r₂
  simp only [] at hm hb ha
  subst hm; subst hb; subst ha
  rfl

/-- Witness for C9 at a concrete context and request. -/
theorem handler_deterministic_witness :
    predict_telemetry exCtx ⟨Method.POST, some [("raw_mill_load", JsonVal.str "120.5")], []⟩ =
      predict_telemetry exCtx ⟨Method.POST, some [("raw_mill_load", JsonVal.str "120.5")], []⟩ :=
  handler_deterministic exCtx _ _ rfl rfl rfl

/-- Claim C2: the rounding policy is decided by substring containment on
the output feature name, first match winning: names containing
"vibration" round to 2 decimals (even when also containing "pressure" or
"flow"), otherwise names containing "pressure" or "flow" round to the
nearest integer, and all other names round to 1 decimal; in particular
"motor_vibration_x" at 3.14159 gives 3.14, "outlet_pressure" at 12.6
gives 13, and "bearing_temperature" at 65.34 gives 65.3. -/
theorem rounding_policy_first_match :
    (∀ (key : String) (v : PyFloat), strContains key "vibration" = true →
      roundFor key v = pyRound 2 v) ∧
    (∀ (key : String) (v : PyFloat), strContains key "vibration" = false →
      (strContains key "pressure" = true ∨ strContains key "flow" = true) →
      roundFor key v = pyRound 0 v) ∧
    (∀ (key : String) (v : PyFloat), strContains key "vibration" = false →
      strContains key "pressure" = false → strContains key "flow" = false →
      roundFor key v = pyRound 1 v) ∧
    roundFor "motor_vibration_x" (PyFloat.finite 3.14159) = PyFloat.finite 3.14 ∧
    roundFor "outlet_pressure" (PyFloat.finite 12.6) = PyFloat.finite 13 ∧
    roundFor "bearing_temperature" (PyFloat.finite 65.34) = PyFloat.finite 65.3 ∧
    roundFor "flow_vibration" (PyFloat.finite 3.14159) = PyFloat.finite 3.14 := by
  refine ⟨?_, ?_, ?_, by decide, by decide, by decide, by decide⟩
  · intro key v h
    simp [roundFor, h]
  · intro key v h h'
    rcases h' with h' | h' <;> simp [roundFor, h, h']
  · intro key v h h' h''
    simp [roundFor, h, h', h'']

/-- Witness for C2: each of the three policy rows applied at a concrete
name and value. -/
theorem rounding_policy_first_match_witness :
    roundFor "motor_vibration_x" (PyFloat.finite 0) = pyRound 2 (PyFloat.finite 0) ∧
    roundFor "outlet_pressure" (PyFloat.finite 0) = pyRound 0 (PyFloat.finite 0) ∧
    roundFor "bearing_temperature" (PyFloat.finite 0) = pyRound 1 (PyFloat.finite 0) :=
  ⟨rounding_policy_first_match.1 "motor_vibration_x" _ (by decide),
   rounding_policy_first_match.2.1 "outlet_pressure" _ (by decide) (Or.inl (by decide)),
   rounding_policy_first_match.2.2.1 "bearing_temperature" _ (by decide) (by decide) (by decide)⟩

/-- Claim C1: with the Model Context loaded, the configured input feature
named "raw_mill_load", twelve distinct configured output features, and a
successful model prediction of a 12-value row, a POST binding
"raw_mill_load" to a valid numeric string returns 200 with a JSON object
whose keys are exactly the 12 output feature names in `output_features`
order. -/
theorem predict_post_numeric_200_keys
    (m : PyModel) (a : Artifacts) (s : String) (v : PyFloat) (row : List PyFloat)
    (hin : a.input_features = ["raw_mill_load"])
    (hlen : a.output_features.length = 12)
    (hnd : a.output_features.Nodup)
    (hs : pyFloatOfString s = some v)
    (hm : m v = some row)
    (hrow : row.length = 12) :
    ∃ d, predict_telemetry ⟨some m, some a⟩
        ⟨Method.POST, some [("raw_mill_load", JsonVal.str s)], []⟩ =
        ⟨Body.json d, 200, corsHeaders⟩ ∧
      d.map Prod.fst = a.output_features ∧ d.length = 12 := by
  refine ⟨(a.output_features.zip row).map fun kv => (kv.1, roundFor kv.1 kv.2), ?_, ?_, ?_⟩
  · simp [predict_telemetry, hin, pyGet, dget, pyFloatOfJson, hs, hm,
      dictOfZip_eq_zip a.output_features row hnd]
  · rw [List.map_map]
    have h1 : (a.output_features.zip row).map Prod.fst = a.output_features :=
      List.map_fst_zip _ _ (le_of_eq (by rw [hlen, hrow]))
    simpa using h1
  · simp [hlen, hrow]

/-- Witness for C1 at a concrete loaded context and input "120.5". -/
theorem predict_post_numeric_200_keys_witness :
    ∃ d, predict_telemetry ⟨some exModel, some exArtifacts⟩
        ⟨Method.POST, some [("raw_mill_load", JsonVal.str "120.5")], []⟩ =
        ⟨Body.json d, 200, corsHeaders⟩ ∧
      d.map Prod.fst = exArtifacts.output_features ∧ d.length = 12 :=
  predict_post_numeric_200_keys exModel exArtifacts "120.5" (PyFloat.finite (241 / 2))
    (List.replicate 12 (PyFloat.finite 3.14159)) rfl rfl (by decide) (by decide) rfl rfl

/-- Counterexample to C4 as stated: with a loaded context, a POST whose
"raw_mill_load" value is JSON null returns 400 with the
missing-parameter message of the field-presence step, not the
"Must be a number" message of the coercion step. -/
theorem null_input_counterexample :
    predict_telemetry ⟨some exModel, some exArtifacts⟩
        ⟨Method.POST, some [("raw_mill_load", JsonVal.null)], []⟩ =
      ⟨Body.text "Bad Request: Missing 'raw_mill_load' parameter.", 400, corsHeaders⟩ ∧
    (predict_telemetry ⟨some exModel, some exArtifacts⟩
        ⟨Method.POST, some [("raw_mill_load", JsonVal.null)], []⟩).body ≠
      Body.text "Bad Request: Invalid value for 'raw_mill_load'. Must be a number." := by
  exact ⟨by decide, by decide⟩

/-- Claim C4 as amended: with the Model Context loaded and the input
feature configured as "raw_mill_load", any bound value that fails float
coercion and is not JSON null gets 400 with the "Must be a number"
message — for POST bodies and GET query strings alike, a string clause
being scoped to ASCII strings, where the embedded `float()` parse is
exact (CPython transliterates non-ASCII digits and spaces first), and a
JSON array or object failing unconditionally; JSON null, however, is
read back as Python `None`, indistinguishable from an absent field, and
gets 400 with the missing-parameter message of the field-presence step
instead. -/
theorem nonnumeric_400 (m : PyModel) (a : Artifacts)
    (hin : a.input_features = ["raw_mill_load"]) :
    (∀ s : String, isAsciiStr s = true → pyFloatOfString s = none →
      predict_telemetry ⟨some m, some a⟩
          ⟨Method.POST, some [("raw_mill_load", JsonVal.str s)], []⟩ =
        ⟨Body.text "Bad Request: Invalid value for 'raw_mill_load'. Must be a number.", 400,
          corsHeaders⟩) ∧
    (∀ n : ℕ,
      predict_telemetry ⟨some m, some a⟩
          ⟨Method.POST, some [("raw_mill_load", JsonVal.arr n)], []⟩ =
        ⟨Body.text "Bad Request: Invalid value for 'raw_mill_load'. Must be a number.", 400,
          corsHeaders⟩) ∧
    (∀ n : ℕ,
      predict_telemetry ⟨some m, some a⟩
          ⟨Method.POST, some [("raw_mill_load", JsonVal.obj n)], []⟩ =
        ⟨Body.text "Bad Request: Invalid value for 'raw_mill_load'. Must be a number.", 400,
          corsHeaders⟩) ∧
    (∀ s : String, isAsciiStr s = true → pyFloatOfString s = none →
      predict_telemetry ⟨some m, some a⟩ ⟨Method.GET, none, [("raw_mill_load", s)]⟩ =
        ⟨Body.text "Bad Request: Invalid value for 'raw_mill_load'. Must be a number.", 400,
          corsHeaders⟩) ∧
    predict_telemetry ⟨some m, some a⟩ ⟨Method.POST, some [("raw_mill_load", JsonVal.null)], []⟩ =
      ⟨Body.text "Bad Request: Missing 'raw_mill_load' parameter.", 400, corsHeaders⟩ := by
  refine ⟨?_, ?_, ?_, ?_, ?_⟩
  · intro s _ hs
    simp [predict_telemetry, hin, pyGet, dget, pyFloatOfJson, hs]
  · intro n
    simp [predict_telemetry, hin, pyGet, dget, pyFloatOfJson]
  · intro n
    simp [predict_telemetry, hin, pyGet, dget, pyFloatOfJson]
  · intro s _ hs
    simp [predict_telemetry, hin, pyGet, dget, pyFloatOfJson, hs]
  · simp [predict_telemetry, hin, pyGet, dget]

/-- Witness for the amended C4 at the values "abc", an array, and null. -/
theorem nonnumeric_400_witness :
    predict_telemetry ⟨some exModel, some exArtifacts⟩
        ⟨Method.POST, some [("raw_mill_load", JsonVal.str "abc")], []⟩ =
      ⟨Body.text "Bad Request: Invalid value for 'raw_mill_load'. Must be a number.", 400,
        corsHeaders⟩ ∧
    predict_telemetry ⟨some exModel, some exArtifacts⟩
        ⟨Method.POST, some [("raw_mill_load", JsonVal.arr 0)], []⟩ =
      ⟨Body.text "Bad Request: Invalid value for 'raw_mill_load'. Must be a number.", 400,
        corsHeaders⟩ ∧
    predict_telemetry ⟨some exModel, some exArtifacts⟩
        ⟨Method.GET, none, [("raw_mill_load", "abc")]⟩ =
      ⟨Body.text "Bad Request: Invalid value for 'raw_mill_load'. Must be a number.", 400,
        corsHeaders⟩ ∧
    predict_telemetry ⟨some exModel, some exArtifacts⟩
        ⟨Method.POST, some [("raw_mill_load", JsonVal.null)], []⟩ =
      ⟨Body.text "Bad Request: Missing 'raw_mill_load' parameter.", 400, corsHeaders⟩ :=
  ⟨(nonnumeric_400 exModel exArtifacts rfl).1 "abc" (by decide) (by decide),
   (nonnumeric_400 exModel exArtifacts rfl).2.1 0,
   (nonnumeric_400 exModel exArtifacts rfl).2.2.2.1 "abc" (by decide) (by decide),
   (nonnumeric_400 exModel exArtifacts rfl).2.2.2.2⟩

/-- Claim C7: if either artifact read fails, `load_model` returns
`False` instead of propagating the exception, the context stays
unloaded (`artifacts` is still `None` even when the model blob was
already assigned), and every subsequent non-OPTIONS request gets the
500 model-not-loaded response — none reaches inference. -/
theorem load_failure_stays_unloaded (jl : Except String PyModel)
    (js : Except String Artifacts)
    (hfail : (∃ e, jl = Except.error e) ∨ (∃ e, js = Except.error e)) :
    (load_model jl js initialState).2 = false ∧
    (load_model jl js initialState).1.artifacts = none ∧
    ∀ req : Request, req.method ≠ Method.OPTIONS →
      predict_telemetry (load_model jl js initialState).1 req =
        ⟨Body.text "Internal Server Error: Model not loaded", 500, corsHeaders⟩ := by
  have hart : (load_model jl js initialState).1.artifacts = none ∧
      (load_model jl js initialState).2 = false := by
    cases jl with
    | error e => exact ⟨rfl, rfl⟩
    | ok m =>
      cases js with
      | error e => exact ⟨rfl, rfl⟩
      | ok a => rcases hfail with ⟨e, he⟩ | ⟨e, he⟩ <;> simp at he
  exact ⟨hart.2, hart.1, fun req hreq => notLoaded_500 _ req hreq (Or.inr hart.1)⟩

/-- Witness for C7: a missing model file leaves the context unloaded and
a GET request is answered 500. -/
theorem load_failure_stays_unloaded_witness :
    (load_model (Except.error "model.joblib") (Except.ok exArtifacts) initialState).2 = false ∧
    predict_telemetry
        (load_model (Except.error "model.joblib") (Except.ok exArtifacts) initialState).1
        ⟨Method.GET, none, []⟩ =
      ⟨Body.text "Internal Server Error: Model not loaded", 500, corsHeaders⟩ := by
  have h := load_failure_stays_unloaded (Except.error "model.joblib") (Except.ok exArtifacts)
    (Or.inl ⟨"model.joblib", rfl⟩)
  exact ⟨h.1, h.2.2 ⟨Method.GET, none, []⟩ (by decide)⟩

/-- Claim C8: a GET whose query string carries a numeric string and a
POST whose JSON body carries the corresponding number produce identical
responses, whatever the Model Context is. -/
theorem get_post_equivalent (ctx : ModelContext) (q : ℚ) (s : String)
    (hs : pyFloatOfString s = some (PyFloat.finite q)) :
    predict_telemetry ctx ⟨Method.GET, none, [("raw_mill_load", s)]⟩ =
      predict_telemetry ctx ⟨Method.POST, some [("raw_mill_load", JsonVal.num q)], []⟩ := by
  obtain ⟨mo, ar⟩ := ctx
  cases mo with
  | none => cases ar <;> rfl
  | some m =>
    cases ar with
    | none => rfl
    | some a =>
      obtain ⟨inF, outF⟩ := a
      cases inF with
      | nil => rfl
      | cons name rest =>
        by_cases hname : ("raw_mill_load" : String) = name
        · subst hname
          simp [predict_telemetry, pyGet, dget, pyFloatOfJson, hs]
        · simp [predict_telemetry, pyGet, dget, hname]

/-- Witness for C8 at the spec's scenario value 120.5. -/
theorem get_post_equivalent_witness :
    predict_telemetry ⟨some exModel, some exArtifacts⟩
        ⟨Method.GET, none, [("raw_mill_load", "120.5")]⟩ =
      predict_telemetry ⟨some exModel, some exArtifacts⟩
        ⟨Method.POST, some [("raw_mill_load", JsonVal.num 120.5)], []⟩ :=
  get_post_equivalent ⟨some exModel, some exArtifacts⟩ 120.5 "120.5" (by decide)

/-- Claim C10: `float` coercion accepts more than finite numbers: the
strings "nan", "inf" and "Infinity" parse to non-finite values and the
boolean true coerces to 1.0, so such inputs are not rejected with 400
and reach the model, returning 200 whenever inference succeeds. -/
theorem nonfinite_accepted (m : PyModel) (a : Artifacts)
    (hin : a.input_features = ["raw_mill_load"]) :
    pyFloatOfString "nan" = some PyFloat.nan ∧
    pyFloatOfString "inf" = some PyFloat.inf ∧
    pyFloatOfString "Infinity" = some PyFloat.inf ∧
    pyFloatOfJson (JsonVal.bool true) = some (PyFloat.finite 1) ∧
    ∀ (jv : JsonVal) (v : PyFloat) (row : List PyFloat),
      pyFloatOfJson jv = some v → m v = some row →
      (predict_telemetry ⟨some m, some a⟩
          ⟨Method.POST, some [("raw_mill_load", jv)], []⟩).status = 200 := by
  refine ⟨by decide, by decide, by decide, by decide, ?_⟩
  intro jv v row hjv hm
  cases jv <;>
    simp_all [predict_telemetry, hin, pyGet, dget, pyFloatOfJson, hm]

/-- Witness for C10: a POST with the string "nan" gets a 200. -/
theorem nonfinite_accepted_witness :
    (predict_telemetry ⟨some exModel, some exArtifacts⟩
        ⟨Method.POST, some [("raw_mill_load", JsonVal.str "nan")], []⟩).status = 200 :=
  (nonfinite_accepted exModel exArtifacts rfl).2.2.2.2 (JsonVal.str "nan") PyFloat.nan
    (List.replicate 12 (PyFloat.finite 3.14159)) (by decide) rfl

end CementMind
